import Mathlib

/-!
Verification of the synthetic-data loader `load_data.py` of the
global-inequality SQL demo repository.

The script generates five tables (country metadata, GDP, inequality,
poverty, trade/education) from a hardcoded 48-country catalog, using
`random.uniform` draws.  We embed it shallowly: every call to
`random.uniform(a, b)` becomes an explicit rational parameter together
with a validity predicate `a ≤ x ∧ x ≤ b`; Python's `round(x, 2)`
(round half to even on the exact value) becomes `round2`; each generator
becomes a pure function from the draw parameters to the list of rows it
inserts.
-/

namespace LoadData

/-- Round a rational to the nearest integer, ties to even
(the semantics of Python's built-in `round` on exact values). -/
def roundHalfEven (q : ℚ) : ℤ :=
  let f := ⌊q⌋
  let frac := q - f
  if frac < 1/2 then f
  else if 1/2 < frac then f + 1
  else if f % 2 = 0 then f else f + 1

/-- Python's `round(x, 2)`: round to two decimal places, ties to even. -/
def round2 (q : ℚ) : ℚ := (roundHalfEven (q * 100) : ℚ) / 100

theorem floor_le_roundHalfEven (q : ℚ) : ⌊q⌋ ≤ roundHalfEven q := by
  unfold roundHalfEven
  dsimp only
  split
  · exact le_refl _
  · split
    · exact le_of_lt (lt_add_one _)
    · split
      · exact le_refl _
      · exact le_of_lt (lt_add_one _)

theorem roundHalfEven_le_floor_add_one (q : ℚ) : roundHalfEven q ≤ ⌊q⌋ + 1 := by
  unfold roundHalfEven
  dsimp only
  split
  · exact le_of_lt (lt_add_one _)
  · split
    · exact le_refl _
    · split
      · exact le_of_lt (lt_add_one _)
      · exact le_refl _

theorem roundHalfEven_mono {x y : ℚ} (h : x ≤ y) :
    roundHalfEven x ≤ roundHalfEven y := by
  rcases lt_or_eq_of_le (Int.floor_le_floor h) with hf | hf
  · calc roundHalfEven x ≤ ⌊x⌋ + 1 := roundHalfEven_le_floor_add_one x
      _ ≤ ⌊y⌋ := hf
      _ ≤ roundHalfEven y := floor_le_roundHalfEven y
  · unfold roundHalfEven
    dsimp only
    rw [hf]
    have hfr : x - (⌊y⌋ : ℚ) ≤ y - (⌊y⌋ : ℚ) := by linarith
    by_cases h1 : x - (⌊y⌋ : ℚ) < 1/2
    · rw [if_pos h1]
      by_cases h2 : y - (⌊y⌋ : ℚ) < 1/2
      · rw [if_pos h2]
      · rw [if_neg h2]
        split
        · exact le_of_lt (lt_add_one _)
        · split
          · exact le_refl _
          · exact le_of_lt (lt_add_one _)
    · rw [if_neg h1]
      have h1' : ¬ y - (⌊y⌋ : ℚ) < 1/2 := by
        intro hc; exact h1 (lt_of_le_of_lt hfr hc)
      rw [if_neg h1']
      by_cases h2 : 1/2 < x - (⌊y⌋ : ℚ)
      · rw [if_pos h2, if_pos (lt_of_lt_of_le h2 hfr)]
      · rw [if_neg h2]
        have hx : x - (⌊y⌋ : ℚ) = 1/2 := le_antisymm (not_lt.mp h2) (not_lt.mp h1)
        by_cases h3 : 1/2 < y - (⌊y⌋ : ℚ)
        · rw [if_pos h3]
          split
          · exact le_of_lt (lt_add_one _)
          · exact le_refl _
        · rw [if_neg h3]

theorem roundHalfEven_le (q : ℚ) : (roundHalfEven q : ℚ) ≤ q + 1/2 := by
  unfold roundHalfEven
  dsimp only
  have hfl : (⌊q⌋ : ℚ) ≤ q := Int.floor_le q
  split
  · linarith
  · split
    · rename_i h1 h2
      push_neg at h1
      push_cast
      linarith
    · rename_i h1 h2
      push_neg at h1 h2
      split
      · linarith
      · push_cast
        linarith

theorem le_roundHalfEven (q : ℚ) : q - 1/2 ≤ (roundHalfEven q : ℚ) := by
  unfold roundHalfEven
  dsimp only
  have hfl : q < (⌊q⌋ : ℚ) + 1 := Int.lt_floor_add_one q
  split
  · rename_i h1
    linarith
  · split
    · rename_i h1 h2
      push_cast
      linarith
    · rename_i h1 h2
      push_neg at h1 h2
      have hx : q - (⌊q⌋ : ℚ) = 1/2 := le_antisymm h2 h1
      split
      · linarith
      · push_cast
        linarith

theorem roundHalfEven_intCast (n : ℤ) : roundHalfEven (n : ℚ) = n := by
  unfold roundHalfEven
  dsimp only
  rw [Int.floor_intCast]
  rw [if_pos]
  simp

theorem round2_mono {x y : ℚ} (h : x ≤ y) : round2 x ≤ round2 y := by
  unfold round2
  have := roundHalfEven_mono (by linarith : x * 100 ≤ y * 100)
  have : (roundHalfEven (x * 100) : ℚ) ≤ (roundHalfEven (y * 100) : ℚ) := by
    exact_mod_cast this
  linarith

theorem round2_le (x : ℚ) : round2 x ≤ x + 1/200 := by
  unfold round2
  have := roundHalfEven_le (x * 100)
  linarith

theorem le_round2 (x : ℚ) : x - 1/200 ≤ round2 x := by
  unfold round2
  have := le_roundHalfEven (x * 100)
  linarith

theorem round2_of_hundredth (n : ℤ) : round2 ((n : ℚ) / 100) = (n : ℚ) / 100 := by
  unfold round2
  rw [div_mul_cancel₀ _ (by norm_num : (100 : ℚ) ≠ 0), roundHalfEven_intCast]

/-! ## The country catalog (`load_country_metadata`) -/

/-- The four `income_group` strings of the catalog. -/
inductive IncomeGroup where
  | high
  | upperMiddle
  | lowerMiddle
  | low
deriving DecidableEq, Repr

/-- The seven `region` strings of the catalog. -/
inductive Region where
  | northAmerica
  | europeCentralAsia
  | eastAsiaPacific
  | southAsia
  | latinAmericaCaribbean
  | subSaharanAfrica
  | middleEastNorthAfrica
deriving DecidableEq, Repr

/-- One row of `countries_data` (the parallel lists of
`load_country_metadata`, zipped). -/
structure Country where
  country_code : String
  country_name : String
  region : Region
  income_group : IncomeGroup
deriving DecidableEq, Repr

open IncomeGroup Region in
/-- The hardcoded 48-country catalog of `load_country_metadata`. -/
def countries_data : List Country :=
  [⟨"USA", "United States", northAmerica, high⟩,
   ⟨"GBR", "United Kingdom", europeCentralAsia, high⟩,
   ⟨"DEU", "Germany", europeCentralAsia, high⟩,
   ⟨"FRA", "France", europeCentralAsia, high⟩,
   ⟨"JPN", "Japan", eastAsiaPacific, high⟩,
   ⟨"CHN", "China", eastAsiaPacific, upperMiddle⟩,
   ⟨"IND", "India", southAsia, lowerMiddle⟩,
   ⟨"BRA", "Brazil", latinAmericaCaribbean, upperMiddle⟩,
   ⟨"ZAF", "South Africa", subSaharanAfrica, upperMiddle⟩,
   ⟨"NGA", "Nigeria", subSaharanAfrica, lowerMiddle⟩,
   ⟨"KEN", "Kenya", subSaharanAfrica, lowerMiddle⟩,
   ⟨"ETH", "Ethiopia", subSaharanAfrica, low⟩,
   ⟨"MEX", "Mexico", latinAmericaCaribbean, upperMiddle⟩,
   ⟨"ARG", "Argentina", latinAmericaCaribbean, upperMiddle⟩,
   ⟨"CHL", "Chile", latinAmericaCaribbean, high⟩,
   ⟨"POL", "Poland", europeCentralAsia, high⟩,
   ⟨"CZE", "Czech Republic", europeCentralAsia, high⟩,
   ⟨"HUN", "Hungary", europeCentralAsia, high⟩,
   ⟨"RUS", "Russia", europeCentralAsia, upperMiddle⟩,
   ⟨"TUR", "Turkey", europeCentralAsia, upperMiddle⟩,
   ⟨"IDN", "Indonesia", eastAsiaPacific, upperMiddle⟩,
   ⟨"THA", "Thailand", eastAsiaPacific, upperMiddle⟩,
   ⟨"VNM", "Vietnam", eastAsiaPacific, lowerMiddle⟩,
   ⟨"PHL", "Philippines", eastAsiaPacific, lowerMiddle⟩,
   ⟨"EGY", "Egypt", middleEastNorthAfrica, lowerMiddle⟩,
   ⟨"MAR", "Morocco", middleEastNorthAfrica, lowerMiddle⟩,
   ⟨"GHA", "Ghana", subSaharanAfrica, lowerMiddle⟩,
   ⟨"TZA", "Tanzania", subSaharanAfrica, lowerMiddle⟩,
   ⟨"UGA", "Uganda", subSaharanAfrica, low⟩,
   ⟨"RWA", "Rwanda", subSaharanAfrica, low⟩,
   ⟨"SWE", "Sweden", europeCentralAsia, high⟩,
   ⟨"NOR", "Norway", europeCentralAsia, high⟩,
   ⟨"DNK", "Denmark", europeCentralAsia, high⟩,
   ⟨"FIN", "Finland", europeCentralAsia, high⟩,
   ⟨"NLD", "Netherlands", europeCentralAsia, high⟩,
   ⟨"BEL", "Belgium", europeCentralAsia, high⟩,
   ⟨"AUT", "Austria", europeCentralAsia, high⟩,
   ⟨"CHE", "Switzerland", europeCentralAsia, high⟩,
   ⟨"ITA", "Italy", europeCentralAsia, high⟩,
   ⟨"ESP", "Spain", europeCentralAsia, high⟩,
   ⟨"PRT", "Portugal", europeCentralAsia, high⟩,
   ⟨"GRC", "Greece", europeCentralAsia, high⟩,
   ⟨"CAN", "Canada", northAmerica, high⟩,
   ⟨"AUS", "Australia", eastAsiaPacific, high⟩,
   ⟨"NZL", "New Zealand", eastAsiaPacific, high⟩,
   ⟨"KOR", "South Korea", eastAsiaPacific, high⟩,
   ⟨"SGP", "Singapore", eastAsiaPacific, high⟩,
   ⟨"MYS", "Malaysia", eastAsiaPacific, upperMiddle⟩]

/-! ## The GDP generator (`load_gdp_data`) -/

/-- `gdp_ranges`: base GDP per capita range by income group. -/
def gdp_ranges : IncomeGroup → ℚ × ℚ
  | .high => (40000, 80000)
  | .upperMiddle => (8000, 20000)
  | .lowerMiddle => (2000, 8000)
  | .low => (500, 2000)

/-- The income-group-specific growth range sampled at the top of each
year iteration of `load_gdp_data`. -/
def growth_range : IncomeGroup → ℚ × ℚ
  | .high => (1, 3)
  | .upperMiddle => (3, 7)
  | .lowerMiddle => (4, 8)
  | .low => (3, 6)

/-- The years `range(2015, 2024)` of the GDP and trade/education loops. -/
def gdp_year_list : List ℕ := List.range' 2015 9

/-- The survey years `[2015, 2017, 2019, 2021, 2023]` of the inequality
and poverty loops. -/
def survey_year_list : List ℕ := [2015, 2017, 2019, 2021, 2023]

/-- The `random.uniform` draws `load_gdp_data` makes for one country:
the base GDP, the per-year income-group growth draw, and the
`uniform(-5, -2)` draw that overwrites `growth` when `year == 2020`. -/
structure GdpDraws where
  base_gdp : ℚ
  group_growth : ℕ → ℚ
  covid_growth : ℚ

/-- Each draw lies in the range `random.uniform` was called with. -/
def GdpDraws.Valid (g : IncomeGroup) (d : GdpDraws) : Prop :=
  (gdp_ranges g).1 ≤ d.base_gdp ∧ d.base_gdp ≤ (gdp_ranges g).2 ∧
  (∀ y : ℕ, (growth_range g).1 ≤ d.group_growth y ∧
    d.group_growth y ≤ (growth_range g).2) ∧
  -5 ≤ d.covid_growth ∧ d.covid_growth ≤ -2

/-- One row appended to `data` in `load_gdp_data`. -/
structure GdpRecord where
  country_code : String
  year : ℕ
  gdp_per_capita_current_usd : ℚ
  gdp_total_current_usd : Option ℚ
  gdp_growth_annual_pct : ℚ
deriving DecidableEq, Repr

/-- The `growth` variable after the COVID override:
the 2020 iteration re-samples from `uniform(-5, -2)`. -/
def gdpGrowthFor (d : GdpDraws) (year : ℕ) : ℚ :=
  if year = 2020 then d.covid_growth else d.group_growth year

/-- The row `load_gdp_data` appends for one country and year. -/
def gdpRecordFor (code : String) (d : GdpDraws) (year : ℕ) : GdpRecord :=
  let growth := gdpGrowthFor d year
  let years_since_base := year - 2015
  let gdp := d.base_gdp * (1 + growth / 100) ^ years_since_base
  { country_code := code
    year := year
    gdp_per_capita_current_usd := round2 gdp
    gdp_total_current_usd := none
    gdp_growth_annual_pct := round2 growth }

/-- All rows `load_gdp_data` writes to the `gdp_data` table. -/
def load_gdp_data (draws : Country → GdpDraws) : List GdpRecord :=
  countries_data.flatMap fun c =>
    gdp_year_list.map (gdpRecordFor c.country_code (draws c))

/-! ## The inequality generator (`load_inequality_data`) -/

/-- `gini_ranges`: base Gini range by region. -/
def gini_ranges : Region → ℚ × ℚ
  | .latinAmericaCaribbean => (45, 55)
  | .subSaharanAfrica => (40, 65)
  | .middleEastNorthAfrica => (35, 42)
  | .southAsia => (32, 38)
  | .eastAsiaPacific => (30, 45)
  | .europeCentralAsia => (25, 38)
  | .northAmerica => (38, 42)

/-- The three per-survey-year `random.uniform` draws of
`load_inequality_data`: the `uniform(-3, 3)` Gini variation, the
`uniform(4, 9)` lowest-20% share and the `uniform(40, 55)`
highest-20% share. -/
structure IneqYearDraws where
  gini_var : ℚ
  lowest_20 : ℚ
  highest_20 : ℚ

/-- The draws `load_inequality_data` makes for one country. -/
structure IneqDraws where
  base_gini : ℚ
  perYear : ℕ → IneqYearDraws

/-- Each draw lies in the range `random.uniform` was called with. -/
def IneqDraws.Valid (r : Region) (d : IneqDraws) : Prop :=
  (gini_ranges r).1 ≤ d.base_gini ∧ d.base_gini ≤ (gini_ranges r).2 ∧
  ∀ y : ℕ, -3 ≤ (d.perYear y).gini_var ∧ (d.perYear y).gini_var ≤ 3 ∧
    4 ≤ (d.perYear y).lowest_20 ∧ (d.perYear y).lowest_20 ≤ 9 ∧
    40 ≤ (d.perYear y).highest_20 ∧ (d.perYear y).highest_20 ≤ 55

/-- One row appended to `data` in `load_inequality_data`. -/
structure IneqRecord where
  country_code : String
  year : ℕ
  gini_coefficient : ℚ
  income_share_lowest_20pct : ℚ
  income_share_highest_20pct : ℚ
  palma_ratio : ℚ
deriving DecidableEq, Repr

/-- The row `load_inequality_data` appends for one country and survey
year: Gini perturbed then clamped by `max(20, min(70, gini))`, the two
income shares, and `palma = round(highest_20 / (lowest_20 * 2), 2)`. -/
def ineqRecordFor (code : String) (d : IneqDraws) (year : ℕ) : IneqRecord :=
  let w := d.perYear year
  let gini := max 20 (min 70 (d.base_gini + w.gini_var))
  { country_code := code
    year := year
    gini_coefficient := round2 gini
    income_share_lowest_20pct := round2 w.lowest_20
    income_share_highest_20pct := round2 w.highest_20
    palma_ratio := round2 (w.highest_20 / (w.lowest_20 * 2)) }

/-- All rows `load_inequality_data` writes to `inequality_metrics`. -/
def load_inequality_data (draws : Country → IneqDraws) : List IneqRecord :=
  countries_data.flatMap fun c =>
    survey_year_list.map (ineqRecordFor c.country_code (draws c))

/-! ## The poverty generator (`load_poverty_data`) -/

/-- The membership test
`income_group in ['Low income', 'Lower middle income', 'Upper middle income']`. -/
def povertyEligible (g : IncomeGroup) : Bool :=
  g == .low || g == .lowerMiddle || g == .upperMiddle

/-- The three base headcount draws `load_poverty_data` makes for one
eligible country. -/
structure PovertyDraws where
  base_215 : ℚ
  base_365 : ℚ
  base_685 : ℚ

/-- Each base draw lies in the income-group-specific range
`random.uniform` was called with (no draw is made for High income). -/
def PovertyDraws.Valid (g : IncomeGroup) (d : PovertyDraws) : Prop :=
  match g with
  | .low =>
      40 ≤ d.base_215 ∧ d.base_215 ≤ 70 ∧
      60 ≤ d.base_365 ∧ d.base_365 ≤ 85 ∧
      75 ≤ d.base_685 ∧ d.base_685 ≤ 95
  | .lowerMiddle =>
      10 ≤ d.base_215 ∧ d.base_215 ≤ 40 ∧
      25 ≤ d.base_365 ∧ d.base_365 ≤ 60 ∧
      50 ≤ d.base_685 ∧ d.base_685 ≤ 80
  | .upperMiddle =>
      1 ≤ d.base_215 ∧ d.base_215 ≤ 15 ∧
      5 ≤ d.base_365 ∧ d.base_365 ≤ 30 ∧
      15 ≤ d.base_685 ∧ d.base_685 ≤ 50
  | .high => True

/-- One row appended to `data` in `load_poverty_data`. -/
structure PovertyRecord where
  country_code : String
  year : ℕ
  poverty_headcount_215_pct : ℚ
  poverty_headcount_365_pct : ℚ
  poverty_headcount_685_pct : ℚ
  poverty_gap : Option ℚ
deriving DecidableEq, Repr

/-- `reduction_factor = 1 - ((year - 2015) / 8) * 0.15`. -/
def reduction_factor (year : ℕ) : ℚ :=
  1 - ((year : ℚ) - 2015) / 8 * (15 / 100)

/-- The row `load_poverty_data` appends for one eligible country and
survey year. -/
def povertyRecordFor (code : String) (d : PovertyDraws) (year : ℕ) :
    PovertyRecord :=
  { country_code := code
    year := year
    poverty_headcount_215_pct := round2 (d.base_215 * reduction_factor year)
    poverty_headcount_365_pct := round2 (d.base_365 * reduction_factor year)
    poverty_headcount_685_pct := round2 (d.base_685 * reduction_factor year)
    poverty_gap := none }

/-- All rows `load_poverty_data` writes to `poverty_indicators`:
only countries whose income group passes the eligibility test
contribute rows. -/
def load_poverty_data (draws : Country → PovertyDraws) : List PovertyRecord :=
  countries_data.flatMap fun c =>
    if povertyEligible c.income_group then
      survey_year_list.map (povertyRecordFor c.country_code (draws c))
    else []

/-! ## The trade/education generator (`load_trade_education`) -/

/-- The per-country base draws of `load_trade_education`: trade
openness from `uniform(40, 150)` and the three income-group-conditioned
education draws. -/
structure TradeEduBaseDraws where
  base_trade : ℚ
  sec_enrollment : ℚ
  ter_enrollment : ℚ
  gov_edu_exp : ℚ

/-- The per-year draws of `load_trade_education`: the `uniform(-10, 10)`
trade noise and the `uniform(-0.5, 0.5)` expenditure noise. -/
structure TradeEduYearDraws where
  trade_var : ℚ
  exp_var : ℚ

/-- The draws `load_trade_education` makes for one country. -/
structure TradeEduDraws where
  base : TradeEduBaseDraws
  perYear : ℕ → TradeEduYearDraws

/-- The enrollment/expenditure sampling ranges by income group, as
(secondary, tertiary, expenditure) pairs. -/
def eduRanges : IncomeGroup → (ℚ × ℚ) × (ℚ × ℚ) × (ℚ × ℚ)
  | .high => ((95, 105), (60, 90), (4, 6))
  | .upperMiddle => ((75, 95), (30, 60), (7/2, 11/2))
  | .lowerMiddle => ((50, 80), (15, 40), (3, 5))
  | .low => ((30, 60), (5, 20), (2, 4))

/-- Each draw lies in the range `random.uniform` was called with. -/
def TradeEduDraws.Valid (g : IncomeGroup) (d : TradeEduDraws) : Prop :=
  40 ≤ d.base.base_trade ∧ d.base.base_trade ≤ 150 ∧
  (eduRanges g).1.1 ≤ d.base.sec_enrollment ∧
  d.base.sec_enrollment ≤ (eduRanges g).1.2 ∧
  (eduRanges g).2.1.1 ≤ d.base.ter_enrollment ∧
  d.base.ter_enrollment ≤ (eduRanges g).2.1.2 ∧
  (eduRanges g).2.2.1 ≤ d.base.gov_edu_exp ∧
  d.base.gov_edu_exp ≤ (eduRanges g).2.2.2 ∧
  ∀ y : ℕ, -10 ≤ (d.perYear y).trade_var ∧ (d.perYear y).trade_var ≤ 10 ∧
    -(1/2) ≤ (d.perYear y).exp_var ∧ (d.perYear y).exp_var ≤ 1/2

/-- One row appended to `data` in `load_trade_education`. -/
structure TradeEduRecord where
  country_code : String
  year : ℕ
  trade_pct_gdp : ℚ
  secondary_enrollment_rate : ℚ
  tertiary_enrollment_rate : ℚ
  government_expenditure_education_pct : ℚ
deriving DecidableEq, Repr

/-- The row `load_trade_education` appends for one country and year:
`sec_improvement = sec_enrollment + years_since_2015 * 0.5` and
`ter_improvement = ter_enrollment + years_since_2015 * 0.3` (no
per-year noise on either), the secondary rate capped by
`min(105, sec_improvement)`, while the trade and expenditure columns
add their fresh per-year noise. -/
def tradeEduRecordFor (code : String) (d : TradeEduDraws) (year : ℕ) :
    TradeEduRecord :=
  let w := d.perYear year
  let years_since_2015 : ℚ := (year : ℚ) - 2015
  let sec_improvement := d.base.sec_enrollment + years_since_2015 * (5/10)
  let ter_improvement := d.base.ter_enrollment + years_since_2015 * (3/10)
  { country_code := code
    year := year
    trade_pct_gdp := round2 (d.base.base_trade + w.trade_var)
    secondary_enrollment_rate := round2 (min 105 sec_improvement)
    tertiary_enrollment_rate := round2 ter_improvement
    government_expenditure_education_pct :=
      round2 (d.base.gov_edu_exp + w.exp_var) }

/-- All rows `load_trade_education` writes to `trade_education`. -/
def load_trade_education (draws : Country → TradeEduDraws) :
    List TradeEduRecord :=
  countries_data.flatMap fun c =>
    gdp_year_list.map (tradeEduRecordFor c.country_code (draws c))

/-! ## The database and one run of the loader -/

/-- One row of the `country_metadata` table: the catalog row plus the
`population_2023` column set to `None`. -/
structure CountryMetadataRow where
  country : Country
  population_2023 : Option ℚ
deriving DecidableEq, Repr

/-- The rows `load_country_metadata` writes. -/
def country_metadata_rows : List CountryMetadataRow :=
  countries_data.map fun c => ⟨c, none⟩

/-- The five tables of `global_inequality.db`. -/
structure Database where
  country_metadata : List CountryMetadataRow
  gdp_data : List GdpRecord
  inequality_metrics : List IneqRecord
  poverty_indicators : List PovertyRecord
  trade_education : List TradeEduRecord

/-- All `random.uniform` draws one run of `main` makes. -/
structure AllDraws where
  gdp : Country → GdpDraws
  inequality : Country → IneqDraws
  poverty : Country → PovertyDraws
  tradeEdu : Country → TradeEduDraws

/-- `df.to_sql('country_metadata', conn, if_exists='replace', ...)`:
the prior content of the table is discarded. -/
def writeCountryMetadata (db : Database) : Database :=
  { db with country_metadata := country_metadata_rows }

/-- `df.to_sql('gdp_data', conn, if_exists='replace', ...)`. -/
def writeGdpData (db : Database) (draws : Country → GdpDraws) : Database :=
  { db with gdp_data := load_gdp_data draws }

/-- `df.to_sql('inequality_metrics', conn, if_exists='replace', ...)`. -/
def writeInequality (db : Database) (draws : Country → IneqDraws) : Database :=
  { db with inequality_metrics := load_inequality_data draws }

/-- `df.to_sql('poverty_indicators', conn, if_exists='replace', ...)`. -/
def writePoverty (db : Database) (draws : Country → PovertyDraws) : Database :=
  { db with poverty_indicators := load_poverty_data draws }

/-- `df.to_sql('trade_education', conn, if_exists='replace', ...)`. -/
def writeTradeEdu (db : Database) (draws : Country → TradeEduDraws) :
    Database :=
  { db with trade_education := load_trade_education draws }

/-- One successful run of `main` over a database in state `db`:
the five table writes in program order. -/
def runLoader (db : Database) (d : AllDraws) : Database :=
  writeTradeEdu
    (writePoverty
      (writeInequality
        (writeGdpData (writeCountryMetadata db) d.gdp)
        d.inequality)
      d.poverty)
    d.tradeEdu

/-! ## The control flow of `main` -/

/-- The stages `main` runs inside its `try` block, in order: the schema
script, the five loads, and the summary queries. -/
inductive Stage where
  | schema
  | countryMeta
  | gdp
  | inequality
  | poverty
  | tradeEdu
  | summary
deriving DecidableEq, Repr

/-- Whether a stage raises an exception when it is reached. -/
inductive StageResult where
  | ok
  | err
deriving DecidableEq, Repr

/-- Observable events of a run of `main`: acquiring the connection,
running a stage, printing the `traceback` diagnostic, and
`conn.close()`. -/
inductive Event where
  | connect
  | run (s : Stage)
  | printTrace
  | closeConn
deriving DecidableEq, Repr

/-- The order of the statements in `main`'s `try` block. -/
def stage_sequence : List Stage :=
  [.schema, .countryMeta, .gdp, .inequality, .poverty, .tradeEdu, .summary]

/-- Run stages in order until the first exception: the events produced
and whether an exception was raised (propagating to the handler). -/
def runStages (outcome : Stage → StageResult) :
    List Stage → List Event × Bool
  | [] => ([], false)
  | s :: rest =>
    match outcome s with
    | .ok =>
      let p := runStages outcome rest
      (Event.run s :: p.1, p.2)
    | .err => ([Event.run s], true)

/-- The event trace of `main`: connect, the `try` body up to the first
exception, the `except Exception` handler's traceback print when one
was raised, and the `finally: conn.close()`. -/
def mainTrace (outcome : Stage → StageResult) : List Event :=
  [Event.connect] ++ (runStages outcome stage_sequence).1 ++
    (if (runStages outcome stage_sequence).2 then [Event.printTrace] else []) ++
    [Event.closeConn]

/-! ## Concrete sample draws, used to instantiate the theorems -/

/-- The first catalog row. -/
def usaCountry : Country :=
  ⟨"USA", "United States", .northAmerica, .high⟩

/-- The first poverty-eligible catalog row. -/
def chnCountry : Country :=
  ⟨"CHN", "China", .eastAsiaPacific, .upperMiddle⟩

/-- The first low-income catalog row. -/
def ethCountry : Country :=
  ⟨"ETH", "Ethiopia", .subSaharanAfrica, .low⟩

/-- Sample GDP draws: every range at its lower end, COVID draw `-3`. -/
def wGdpDraws : Country → GdpDraws := fun c =>
  ⟨(gdp_ranges c.income_group).1, fun _ => (growth_range c.income_group).1, -3⟩

/-- Sample inequality draws: base Gini at the regional lower end, no
per-year variation, shares `5` and `50`. -/
def wIneqDraws : Country → IneqDraws := fun c =>
  ⟨(gini_ranges c.region).1, fun _ => ⟨0, 5, 50⟩⟩

/-- Sample poverty draws: every base at the lower end of its range
(so the three bases are ordered increasingly). -/
def wPovDraws : Country → PovertyDraws := fun c =>
  match c.income_group with
  | .low => ⟨40, 60, 75⟩
  | .lowerMiddle => ⟨10, 25, 50⟩
  | .upperMiddle => ⟨1, 5, 15⟩
  | .high => ⟨0, 0, 0⟩

/-- Poverty draws in which the sampled $2.15 base exceeds the sampled
$3.65 base: the sampling ranges overlap, so such draws are possible. -/
def povCexDraws : Country → PovertyDraws := fun c =>
  match c.income_group with
  | .low => ⟨70, 60, 80⟩
  | .lowerMiddle => ⟨40, 25, 50⟩
  | .upperMiddle => ⟨15, 5, 15⟩
  | .high => ⟨0, 0, 0⟩

/-- Sample trade/education base draws: trade `100`, education values at
the lower end of their income-group ranges. -/
def wTradeBase (g : IncomeGroup) : TradeEduBaseDraws :=
  ⟨100, (eduRanges g).1.1, (eduRanges g).2.1.1, (eduRanges g).2.2.1⟩

/-- Sample trade/education draws with zero per-year noise. -/
def wTradeDraws : Country → TradeEduDraws := fun c =>
  ⟨wTradeBase c.income_group, fun _ => ⟨0, 0⟩⟩

/-- Trade/education draws whose per-year noise sits at the top of its
sampling ranges. -/
def tedCexDrawsA : Country → TradeEduDraws := fun c =>
  ⟨wTradeBase c.income_group, fun _ => ⟨10, 1/2⟩⟩

/-- Trade/education draws whose per-year noise sits at the bottom of
its sampling ranges. -/
def tedCexDrawsB : Country → TradeEduDraws := fun c =>
  ⟨wTradeBase c.income_group, fun _ => ⟨-10, -(1/2)⟩⟩

/-! ## Helper lemmas -/

theorem round2_intCast (n : ℤ) : round2 (n : ℚ) = n := by
  unfold round2
  have h : ((n : ℚ)) * 100 = ((n * 100 : ℤ) : ℚ) := by push_cast; ring
  rw [h, roundHalfEven_intCast]
  push_cast
  field_simp

theorem round2_20 : round2 20 = 20 := by
  have := round2_intCast 20
  norm_num at this
  exact this

theorem round2_70 : round2 70 = 70 := by
  have := round2_intCast 70
  norm_num at this
  exact this

theorem round2_105 : round2 105 = 105 := by
  have := round2_intCast 105
  norm_num at this
  exact this

theorem round2_lt_round2 {x y : ℚ} (h : x + 1/100 < y) :
    round2 x < round2 y := by
  have h1 := round2_le x
  have h2 := le_round2 y
  linarith

/-- Catalog country codes are pairwise distinct. -/
theorem countries_data_codes_nodup :
    (countries_data.map Country.country_code).Nodup := by decide

/-- Two catalog rows with the same code are the same row. -/
theorem countries_data_code_inj :
    ∀ c₁ ∈ countries_data, ∀ c₂ ∈ countries_data,
      c₁.country_code = c₂.country_code → c₁ = c₂ :=
  List.inj_on_of_nodup_map countries_data_codes_nodup

/-- Membership in the generated GDP table. -/
theorem mem_load_gdp_data {draws : Country → GdpDraws} {r : GdpRecord} :
    r ∈ load_gdp_data draws ↔
      ∃ c ∈ countries_data, ∃ y ∈ gdp_year_list,
        r = gdpRecordFor c.country_code (draws c) y := by
  simp only [load_gdp_data, List.mem_flatMap, List.mem_map, eq_comm]

/-- Membership in the generated inequality table. -/
theorem mem_load_inequality_data {draws : Country → IneqDraws}
    {r : IneqRecord} :
    r ∈ load_inequality_data draws ↔
      ∃ c ∈ countries_data, ∃ y ∈ survey_year_list,
        r = ineqRecordFor c.country_code (draws c) y := by
  simp only [load_inequality_data, List.mem_flatMap, List.mem_map, eq_comm]

/-- Membership in the generated trade/education table. -/
theorem mem_load_trade_education {draws : Country → TradeEduDraws}
    {r : TradeEduRecord} :
    r ∈ load_trade_education draws ↔
      ∃ c ∈ countries_data, ∃ y ∈ gdp_year_list,
        r = tradeEduRecordFor c.country_code (draws c) y := by
  simp only [load_trade_education, List.mem_flatMap, List.mem_map, eq_comm]

/-- Membership in the generated poverty table. -/
theorem mem_load_poverty_data {draws : Country → PovertyDraws}
    {r : PovertyRecord} :
    r ∈ load_poverty_data draws ↔
      ∃ c ∈ countries_data, povertyEligible c.income_group = true ∧
        ∃ y ∈ survey_year_list, r = povertyRecordFor c.country_code (draws c) y := by
  unfold load_poverty_data
  rw [List.mem_flatMap]
  constructor
  · rintro ⟨c, hc, hr⟩
    by_cases he : povertyEligible c.income_group
    · rw [if_pos he] at hr
      rw [List.mem_map] at hr
      obtain ⟨y, hy, hr⟩ := hr
      exact ⟨c, hc, he, y, hy, hr.symm⟩
    · rw [if_neg he] at hr
      exact absurd hr (List.not_mem_nil _)
  · rintro ⟨c, hc, he, y, hy, hr⟩
    refine ⟨c, hc, ?_⟩
    rw [if_pos he, List.mem_map]
    exact ⟨y, hy, hr.symm⟩

/-- Poverty eligibility excludes exactly the High-income group. -/
theorem povertyEligible_ne_high {g : IncomeGroup}
    (h : povertyEligible g = true) : g ≠ IncomeGroup.high := by
  cases g <;> simp_all [povertyEligible]

/-- For eligible groups, every sampled base rate is at least `1`
(the least lower endpoint over all the sampling ranges). -/
theorem pov_bases_ge_one {g : IncomeGroup} {d : PovertyDraws}
    (he : povertyEligible g = true) (hv : PovertyDraws.Valid g d) :
    1 ≤ d.base_215 ∧ 1 ≤ d.base_365 ∧ 1 ≤ d.base_685 := by
  cases g
  case high => simp [povertyEligible] at he
  all_goals
    obtain ⟨h1, h2, h3, h4, h5, h6⟩ := hv
    exact ⟨by linarith, by linarith, by linarith⟩

/-- Distinct survey years are at least two years apart. -/
theorem survey_year_gap {y₁ y₂ : ℕ} (h1 : y₁ ∈ survey_year_list)
    (h2 : y₂ ∈ survey_year_list) (h : y₁ < y₂) :
    y₁ + 2 ≤ y₂ ∧ 2015 ≤ y₁ ∧ y₂ ≤ 2023 := by
  simp only [survey_year_list, List.mem_cons, List.not_mem_nil, or_false] at h1 h2
  rcases h1 with h1 | h1 | h1 | h1 | h1 <;>
    rcases h2 with h2 | h2 | h2 | h2 | h2 <;> omega

/-- The decay factor is nonnegative on every survey year. -/
theorem reduction_factor_nonneg {y : ℕ} (hy : y ∈ survey_year_list) :
    0 ≤ reduction_factor y := by
  simp only [survey_year_list, List.mem_cons, List.not_mem_nil, or_false] at hy
  rcases hy with hy | hy | hy | hy | hy <;> subst hy <;>
    norm_num [reduction_factor]

/-- A base rate of at least `1` decays strictly between survey years
even after rounding to two decimals: the decay step is at least
`0.0375`, more than the `0.01` rounding granularity. -/
theorem pov_rate_strict_decrease {b : ℚ} {y₁ y₂ : ℕ} (hb : 1 ≤ b)
    (hy : 2015 ≤ y₁) (hgap : y₁ + 2 ≤ y₂) :
    round2 (b * reduction_factor y₂) < round2 (b * reduction_factor y₁) := by
  apply round2_lt_round2
  unfold reduction_factor
  have hc : (y₁ : ℚ) + 2 ≤ (y₂ : ℚ) := by exact_mod_cast hgap
  have hy' : (2015 : ℚ) ≤ (y₁ : ℚ) := by exact_mod_cast hy
  nlinarith [mul_le_mul_of_nonneg_right hb
    (by linarith : (0 : ℚ) ≤ ((y₂ : ℚ) - y₁) * (15 / 800))]

/-- Every event `runStages` produces is a stage run of a listed stage. -/
theorem runStages_run_events (f : Stage → StageResult) :
    ∀ l : List Stage, ∀ e ∈ (runStages f l).1, ∃ s ∈ l, e = Event.run s := by
  intro l
  induction l with
  | nil => simp [runStages]
  | cons s rest ih =>
    intro e he
    cases hfs : f s
    case ok =>
      simp only [runStages, hfs, List.mem_cons] at he
      rcases he with he | he
      · exact ⟨s, List.mem_cons_self s rest, he⟩
      · obtain ⟨s', hs', he'⟩ := ih e he
        exact ⟨s', List.mem_cons_of_mem s hs', he'⟩
    case err =>
      simp only [runStages, hfs, List.mem_singleton] at he
      exact ⟨s, List.mem_cons_self s rest, he⟩

/-- `runStages` runs a stage at most as often as it is listed. -/
theorem runStages_count_run (f : Stage → StageResult) (s : Stage) :
    ∀ l : List Stage, (runStages f l).1.count (Event.run s) ≤ l.count s := by
  intro l
  induction l with
  | nil => simp [runStages]
  | cons s' rest ih =>
    cases hfs : f s'
    case ok =>
      simp only [runStages, hfs, List.count_cons, beq_iff_eq, Event.run.injEq]
      by_cases hss : s' = s
      · omega
      · omega
    case err =>
      simp only [runStages, hfs, List.count_cons, List.count_nil,
        beq_iff_eq, Event.run.injEq]
      by_cases hss : s' = s
      · omega
      · omega

/-- `runStages` reports an exception exactly when a listed stage
raises one. -/
theorem runStages_failed (f : Stage → StageResult) :
    ∀ l : List Stage,
      (runStages f l).2 = true ↔ ∃ s ∈ l, f s = StageResult.err := by
  intro l
  induction l with
  | nil => simp [runStages]
  | cons s rest ih =>
    cases hfs : f s
    case ok =>
      simp only [runStages, hfs, List.mem_cons]
      rw [ih]
      constructor
      · rintro ⟨s', hs', herr⟩
        exact ⟨s', Or.inr hs', herr⟩
      · rintro ⟨s', hs' | hs', herr⟩
        · subst hs'; rw [hfs] at herr; exact absurd herr (by simp)
        · exact ⟨s', hs', herr⟩
    case err =>
      simp only [runStages, hfs, List.mem_cons]
      constructor
      · intro _
        exact ⟨s, Or.inl rfl, hfs⟩
      · intro _
        trivial

/-! ## The claims -/

set_option maxRecDepth 10000 in
/-- C4: with the 48-country hardcoded catalog, one run produces exactly
432 rows in gdp_data (48 countries × 9 years 2015–2023), 240 rows in
inequality_metrics (48 × 5 survey years), 432 rows in trade_education
(48 × 9), and 5 × N rows in the poverty table where N is the number of
catalog countries whose income group is not High income. -/
theorem claim_C4_row_counts (dg : Country → GdpDraws)
    (di : Country → IneqDraws) (dp : Country → PovertyDraws)
    (dt : Country → TradeEduDraws) :
    countries_data.length = 48 ∧
    (load_gdp_data dg).length = 432 ∧
    (load_inequality_data di).length = 240 ∧
    (load_trade_education dt).length = 432 ∧
    (load_poverty_data dp).length =
      5 * (countries_data.filter
        (fun c => c.income_group != IncomeGroup.high)).length ∧
    (load_poverty_data dp).length = 110 :=
  ⟨rfl, rfl, rfl, rfl, rfl, rfl⟩

set_option maxRecDepth 10000 in
/-- C7: running the loader a second time replaces each of the five
tables rather than appending to them: after any repeated run, every
table's row count equals the count a single run produces (gdp_data
stays at 432, it does not grow to 864). -/
theorem claim_C7_rerun_replaces (db : Database) (d₁ d₂ : AllDraws) :
    runLoader (runLoader db d₁) d₂ = runLoader db d₂ ∧
    (runLoader (runLoader db d₁) d₂).country_metadata.length =
      (runLoader db d₂).country_metadata.length ∧
    (runLoader (runLoader db d₁) d₂).gdp_data.length = 432 ∧
    (runLoader (runLoader db d₁) d₂).inequality_metrics.length = 240 ∧
    (runLoader (runLoader db d₁) d₂).poverty_indicators.length = 110 ∧
    (runLoader (runLoader db d₁) d₂).trade_education.length = 432 ∧
    (runLoader (runLoader db d₁) d₂).country_metadata.length = 48 :=
  ⟨rfl, rfl, rfl, rfl, rfl, rfl, rfl⟩

/-- C8: if any stage of the run raises an error, main catches it at the
top level, prints a diagnostic trace, performs no retry (no stage runs
twice), and the database connection is closed on every execution path,
as the final action, whether the run succeeds or fails. -/
theorem claim_C8_error_handling (outcome : Stage → StageResult) :
    (mainTrace outcome).getLast? = some Event.closeConn ∧
    (mainTrace outcome).count Event.closeConn = 1 ∧
    (∀ s : Stage, (mainTrace outcome).count (Event.run s) ≤ 1) ∧
    ((∃ s ∈ stage_sequence, outcome s = StageResult.err) →
      Event.printTrace ∈ mainTrace outcome) ∧
    ((∀ s ∈ stage_sequence, outcome s = StageResult.ok) →
      Event.printTrace ∉ mainTrace outcome) := by
  have hev := runStages_run_events outcome stage_sequence
  have hclose_not : Event.closeConn ∉ (runStages outcome stage_sequence).1 := by
    intro h
    obtain ⟨s, _, he⟩ := hev _ h
    exact Event.noConfusion he
  have hprint_not : Event.printTrace ∉ (runStages outcome stage_sequence).1 := by
    intro h
    obtain ⟨s, _, he⟩ := hev _ h
    exact Event.noConfusion he
  have hassoc : mainTrace outcome =
      ([Event.connect] ++ (runStages outcome stage_sequence).1 ++
        (if (runStages outcome stage_sequence).2 then [Event.printTrace]
          else [])) ++ [Event.closeConn] := by
    rw [mainTrace]
  refine ⟨?_, ?_, ?_, ?_, ?_⟩
  · rw [hassoc, List.getLast?_append_of_ne_nil _ (by simp)]
    rfl
  · rw [mainTrace]
    simp only [List.count_append, List.count_eq_zero.mpr hclose_not]
    split
    · rfl
    · rfl
  · intro s
    have h1 := runStages_count_run outcome s stage_sequence
    have h2 : stage_sequence.count s ≤ 1 := by cases s <;> decide
    rw [mainTrace]
    simp only [List.count_append]
    have hc : ([Event.connect] : List Event).count (Event.run s) = 0 := by simp
    have hcl : ([Event.closeConn] : List Event).count (Event.run s) = 0 := by
      simp
    have hpt : ([Event.printTrace] : List Event).count (Event.run s) = 0 := by
      simp
    rw [hc, hcl]
    split
    · rw [hpt]
      omega
    · simp only [List.count_nil]
      omega
  · intro h
    have hfail := (runStages_failed outcome stage_sequence).mpr h
    rw [mainTrace, hfail]
    simp
  · intro h
    have hfail : (runStages outcome stage_sequence).2 = false := by
      cases hb : (runStages outcome stage_sequence).2
      · rfl
      · obtain ⟨s, hs, herr⟩ := (runStages_failed outcome stage_sequence).mp hb
        rw [h s hs] at herr
        exact StageResult.noConfusion herr
    intro hmem
    rw [mainTrace, hfail] at hmem
    simp only [Bool.false_eq_true, if_false, List.append_nil,
      List.mem_append, List.mem_singleton] at hmem
    rcases hmem with (h1 | h1) | h1
    · exact Event.noConfusion h1
    · exact hprint_not h1
    · exact Event.noConfusion h1

/-- C1: for every inequality record produced by the inequality
generator, the stored gini_coefficient lies in [20, 70], and the stored
palma_ratio equals round(high20_raw / (2 × low20_raw), 2), where the
shares are the sampled (pre-round) values used in the same record. -/
theorem claim_C1_gini_bounds_palma (draws : Country → IneqDraws)
    (r : IneqRecord) (hr : r ∈ load_inequality_data draws) :
    (20 ≤ r.gini_coefficient ∧ r.gini_coefficient ≤ 70) ∧
    ∃ c ∈ countries_data, ∃ y ∈ survey_year_list,
      r = ineqRecordFor c.country_code (draws c) y ∧
      r.palma_ratio = round2 (((draws c).perYear y).highest_20 /
        (2 * ((draws c).perYear y).lowest_20)) ∧
      r.income_share_highest_20pct = round2 ((draws c).perYear y).highest_20 ∧
      r.income_share_lowest_20pct = round2 ((draws c).perYear y).lowest_20 := by
  obtain ⟨c, hc, y, hy, hreq⟩ := mem_load_inequality_data.mp hr
  subst hreq
  refine ⟨⟨?_, ?_⟩, c, hc, y, hy, rfl, ?_, rfl, rfl⟩
  · show (20 : ℚ) ≤ round2 (max 20 (min 70
      ((draws c).base_gini + ((draws c).perYear y).gini_var)))
    calc (20 : ℚ) = round2 20 := round2_20.symm
      _ ≤ _ := round2_mono (le_max_left _ _)
  · show round2 (max 20 (min 70
      ((draws c).base_gini + ((draws c).perYear y).gini_var))) ≤ 70
    calc round2 (max 20 (min 70
          ((draws c).base_gini + ((draws c).perYear y).gini_var)))
        ≤ round2 70 := round2_mono (max_le (by norm_num) (min_le_left _ _))
      _ = 70 := round2_70
  · show round2 (((draws c).perYear y).highest_20 /
        (((draws c).perYear y).lowest_20 * 2)) =
      round2 (((draws c).perYear y).highest_20 /
        (2 * ((draws c).perYear y).lowest_20))
    rw [mul_comm]

/-- C2: for every country, regardless of its income group, the GDP
record for year 2020 uses a growth rate sampled from [-5, -2] percent,
and the stored gdp_per_capita_current_usd for any year y equals
round(base × (1 + growth/100)^(y − 2015), 2) with that year's freshly
sampled growth. -/
theorem claim_C2_gdp_formula (draws : Country → GdpDraws)
    (hv : ∀ c ∈ countries_data, (draws c).Valid c.income_group)
    (r : GdpRecord) (hr : r ∈ load_gdp_data draws) :
    ∃ c ∈ countries_data, ∃ y ∈ gdp_year_list,
      r = gdpRecordFor c.country_code (draws c) y ∧
      r.gdp_per_capita_current_usd =
        round2 ((draws c).base_gdp *
          (1 + gdpGrowthFor (draws c) y / 100) ^ (y - 2015)) ∧
      gdpGrowthFor (draws c) 2020 = (draws c).covid_growth ∧
      -5 ≤ (draws c).covid_growth ∧ (draws c).covid_growth ≤ -2 := by
  obtain ⟨c, hc, y, hy, hreq⟩ := mem_load_gdp_data.mp hr
  subst hreq
  obtain ⟨_, _, _, h5, h2⟩ := hv c hc
  exact ⟨c, hc, y, hy, rfl, rfl, rfl, h5, h2⟩

/-- C6: for every trade/education record, the stored
secondary_enrollment_rate is at most 105 and the stored
tertiary_enrollment_rate is at most 105, for all possible random draws
of the base values. -/
theorem claim_C6_enrollment_caps (draws : Country → TradeEduDraws)
    (hv : ∀ c ∈ countries_data, TradeEduDraws.Valid c.income_group (draws c))
    (r : TradeEduRecord) (hr : r ∈ load_trade_education draws) :
    r.secondary_enrollment_rate ≤ 105 ∧ r.tertiary_enrollment_rate ≤ 105 := by
  obtain ⟨c, hc, y, hy, hreq⟩ := mem_load_trade_education.mp hr
  subst hreq
  obtain ⟨_, _, _, _, _, hter, _⟩ := hv c hc
  constructor
  · show round2 (min 105 ((draws c).base.sec_enrollment +
      ((y : ℚ) - 2015) * (5/10))) ≤ 105
    calc round2 (min 105 ((draws c).base.sec_enrollment +
          ((y : ℚ) - 2015) * (5/10)))
        ≤ round2 105 := round2_mono (min_le_left _ _)
      _ = 105 := round2_105
  · show round2 ((draws c).base.ter_enrollment +
      ((y : ℚ) - 2015) * (3/10)) ≤ 105
    have hymax : y ≤ 2023 := by
      rw [gdp_year_list, List.mem_range'_1] at hy
      omega
    have hy' : (y : ℚ) ≤ 2023 := by exact_mod_cast hymax
    have hterMax : (draws c).base.ter_enrollment ≤ 90 := by
      rcases c with ⟨_, _, _, g⟩
      cases g <;> simp only [eduRanges] at hter <;> linarith
    have hb := round2_le ((draws c).base.ter_enrollment +
      ((y : ℚ) - 2015) * (3/10))
    nlinarith

/-- C10: the Palma-ratio division in the inequality generator is always
well-defined: the lowest-20% share is sampled from [4, 9], so the
denominator lowest_20 × 2 is at least 8 and never zero, for every
country, every year, and every possible random draw. -/
theorem claim_C10_palma_denominator (draws : Country → IneqDraws)
    (hv : ∀ c ∈ countries_data, (draws c).Valid c.region)
    (c : Country) (hc : c ∈ countries_data) (y : ℕ) :
    8 ≤ ((draws c).perYear y).lowest_20 * 2 ∧
    ((draws c).perYear y).lowest_20 * 2 ≠ 0 ∧
    (ineqRecordFor c.country_code (draws c) y).palma_ratio =
      round2 (((draws c).perYear y).highest_20 /
        (((draws c).perYear y).lowest_20 * 2)) := by
  obtain ⟨_, _, hys⟩ := hv c hc
  obtain ⟨_, _, hlow, _, _, _⟩ := hys y
  have h8 : (8 : ℚ) ≤ ((draws c).perYear y).lowest_20 * 2 := by linarith
  refine ⟨h8, ?_, rfl⟩
  intro h0
  rw [h0] at h8
  norm_num at h8

/-- C3: for every country in the poverty table and every poverty line,
the headcount rate strictly decreases as the survey year increases (the
fixed sampled base is multiplied by the decay factor
1 − 0.15×(year−2015)/8, then rounded to 2 decimals), and no poverty
record exists for any country whose income group is High income. -/
theorem claim_C3_poverty_decline (draws : Country → PovertyDraws)
    (hv : ∀ c ∈ countries_data, PovertyDraws.Valid c.income_group (draws c))
    (r₁ r₂ : PovertyRecord)
    (h₁ : r₁ ∈ load_poverty_data draws) (h₂ : r₂ ∈ load_poverty_data draws)
    (hcode : r₁.country_code = r₂.country_code) (hlt : r₁.year < r₂.year) :
    (r₂.poverty_headcount_215_pct < r₁.poverty_headcount_215_pct ∧
     r₂.poverty_headcount_365_pct < r₁.poverty_headcount_365_pct ∧
     r₂.poverty_headcount_685_pct < r₁.poverty_headcount_685_pct) ∧
    ∀ r ∈ load_poverty_data draws, ∀ c ∈ countries_data,
      c.country_code = r.country_code → c.income_group ≠ IncomeGroup.high := by
  constructor
  · obtain ⟨c₁, hc₁, he₁, y₁, hy₁, hr₁⟩ := mem_load_poverty_data.mp h₁
    obtain ⟨c₂, hc₂, he₂, y₂, hy₂, hr₂⟩ := mem_load_poverty_data.mp h₂
    have hcc : c₁.country_code = c₂.country_code := by
      rw [hr₁, hr₂] at hcode
      exact hcode
    have hceq : c₁ = c₂ := countries_data_code_inj c₁ hc₁ c₂ hc₂ hcc
    subst hceq
    have hyy : y₁ < y₂ := by
      rw [hr₁, hr₂] at hlt
      exact hlt
    obtain ⟨hgap, hy2015, _⟩ := survey_year_gap hy₁ hy₂ hyy
    obtain ⟨hb1, hb2, hb3⟩ := pov_bases_ge_one he₁ (hv c₁ hc₁)
    rw [hr₁, hr₂]
    exact ⟨pov_rate_strict_decrease hb1 hy2015 hgap,
           pov_rate_strict_decrease hb2 hy2015 hgap,
           pov_rate_strict_decrease hb3 hy2015 hgap⟩
  · intro r hrm c hcm hcode'
    obtain ⟨c', hc', he', y, hy, hre⟩ := mem_load_poverty_data.mp hrm
    rw [hre] at hcode'
    have hceq : c = c' := countries_data_code_inj c hcm c' hc' hcode'
    rw [hceq]
    exact povertyEligible_ne_high he'

/-- C5 counterexample: the base-rate sampling ranges overlap, so a
valid draw can put the $2.15-line base above the $3.65-line base; the
Ethiopia record for 2015 under such a draw has its $3.65 headcount
strictly below its $2.15 headcount, refuting the claimed monotonicity
across poverty lines. -/
theorem claim_C5_counterexample :
    (∀ c ∈ countries_data, PovertyDraws.Valid c.income_group (povCexDraws c)) ∧
    povertyRecordFor "ETH" (povCexDraws ethCountry) 2015 ∈
      load_poverty_data povCexDraws ∧
    (povertyRecordFor "ETH" (povCexDraws ethCountry) 2015).poverty_headcount_365_pct
      < (povertyRecordFor "ETH" (povCexDraws ethCountry) 2015).poverty_headcount_215_pct := by
  refine ⟨?_, ?_, ?_⟩
  · intro c hc
    rcases c with ⟨_, _, _, g⟩
    cases g <;> norm_num [povCexDraws, PovertyDraws.Valid]
  · exact mem_load_poverty_data.mpr
      ⟨ethCountry, by simp [countries_data, ethCountry], rfl, 2015,
        by simp [survey_year_list], rfl⟩
  · show round2 ((povCexDraws ethCountry).base_365 * reduction_factor 2015) <
      round2 ((povCexDraws ethCountry).base_215 * reduction_factor 2015)
    have hrf : reduction_factor 2015 = 1 := by norm_num [reduction_factor]
    rw [show (povCexDraws ethCountry).base_365 = 60 from rfl,
      show (povCexDraws ethCountry).base_215 = 70 from rfl, hrf,
      mul_one, mul_one]
    have h60 : round2 (60 : ℚ) = 60 := by
      have := round2_intCast 60
      norm_num at this
      exact this
    rw [h60, round2_70]
    norm_num

/-- C5 (amended): the three headcount rates of a poverty record are
monotonically non-decreasing across the increasing poverty lines
whenever the three sampled base rates themselves are so ordered; the
sampling ranges overlap, so this does not hold for all random draws. -/
theorem claim_C5_amended_monotone_lines (draws : Country → PovertyDraws)
    (hord : ∀ c ∈ countries_data,
      (draws c).base_215 ≤ (draws c).base_365 ∧
      (draws c).base_365 ≤ (draws c).base_685)
    (r : PovertyRecord) (hr : r ∈ load_poverty_data draws) :
    r.poverty_headcount_215_pct ≤ r.poverty_headcount_365_pct ∧
    r.poverty_headcount_365_pct ≤ r.poverty_headcount_685_pct := by
  obtain ⟨c, hc, he, y, hy, hre⟩ := mem_load_poverty_data.mp hr
  subst hre
  obtain ⟨h12, h23⟩ := hord c hc
  have hf := reduction_factor_nonneg hy
  exact ⟨round2_mono (mul_le_mul_of_nonneg_right h12 hf),
         round2_mono (mul_le_mul_of_nonneg_right h23 hf)⟩

/-- C9 counterexample: sweeping the per-year noise draws across their
whole sampling ranges leaves the stored secondary and tertiary
enrollment rates unchanged, so those two per-year output attributes
include no freshly sampled per-year noise term. -/
theorem claim_C9_counterexample :
    (∀ c ∈ countries_data, TradeEduDraws.Valid c.income_group (tedCexDrawsA c)) ∧
    (∀ c ∈ countries_data, TradeEduDraws.Valid c.income_group (tedCexDrawsB c)) ∧
    ((tedCexDrawsA usaCountry).perYear 2016).trade_var ≠
      ((tedCexDrawsB usaCountry).perYear 2016).trade_var ∧
    ((tedCexDrawsA usaCountry).perYear 2016).exp_var ≠
      ((tedCexDrawsB usaCountry).perYear 2016).exp_var ∧
    tradeEduRecordFor "USA" (tedCexDrawsA usaCountry) 2016 ∈
      load_trade_education tedCexDrawsA ∧
    tradeEduRecordFor "USA" (tedCexDrawsB usaCountry) 2016 ∈
      load_trade_education tedCexDrawsB ∧
    (tradeEduRecordFor "USA" (tedCexDrawsA usaCountry) 2016).secondary_enrollment_rate
      = (tradeEduRecordFor "USA" (tedCexDrawsB usaCountry) 2016).secondary_enrollment_rate ∧
    (tradeEduRecordFor "USA" (tedCexDrawsA usaCountry) 2016).tertiary_enrollment_rate
      = (tradeEduRecordFor "USA" (tedCexDrawsB usaCountry) 2016).tertiary_enrollment_rate := by
  refine ⟨?_, ?_, ?_, ?_, ?_, ?_, rfl, rfl⟩
  · intro c hc
    rcases c with ⟨_, _, _, g⟩
    cases g <;>
      norm_num [tedCexDrawsA, wTradeBase, TradeEduDraws.Valid, eduRanges]
  · intro c hc
    rcases c with ⟨_, _, _, g⟩
    cases g <;>
      norm_num [tedCexDrawsB, wTradeBase, TradeEduDraws.Valid, eduRanges]
  · norm_num [tedCexDrawsA, tedCexDrawsB]
  · norm_num [tedCexDrawsA, tedCexDrawsB]
  · exact mem_load_trade_education.mpr
      ⟨usaCountry, by simp [countries_data, usaCountry], 2016,
        by simp [gdp_year_list], rfl⟩
  · exact mem_load_trade_education.mpr
      ⟨usaCountry, by simp [countries_data, usaCountry], 2016,
        by simp [gdp_year_list], rfl⟩

/-- C9 (amended): in the trade/education generator, for each year
2015–2023 the trade and expenditure attributes add a freshly sampled
per-year noise term to the sampled base, while the secondary and
tertiary enrollment rates add only the linear improvement terms
(+0.5 and +0.3 per elapsed year) with no per-year noise; the secondary
rate is capped at 105. -/
theorem claim_C9_amended_per_year_values (draws : Country → TradeEduDraws)
    (r : TradeEduRecord) (hr : r ∈ load_trade_education draws) :
    ∃ c ∈ countries_data, ∃ y ∈ gdp_year_list,
      r = tradeEduRecordFor c.country_code (draws c) y ∧
      r.trade_pct_gdp =
        round2 ((draws c).base.base_trade + ((draws c).perYear y).trade_var) ∧
      r.secondary_enrollment_rate =
        round2 (min 105
          ((draws c).base.sec_enrollment + ((y : ℚ) - 2015) * (5/10))) ∧
      r.tertiary_enrollment_rate =
        round2 ((draws c).base.ter_enrollment + ((y : ℚ) - 2015) * (3/10)) ∧
      r.government_expenditure_education_pct =
        round2 ((draws c).base.gov_edu_exp + ((draws c).perYear y).exp_var) ∧
      r.secondary_enrollment_rate ≤ 105 := by
  obtain ⟨c, hc, y, hy, hre⟩ := mem_load_trade_education.mp hr
  subst hre
  refine ⟨c, hc, y, hy, rfl, rfl, rfl, rfl, rfl, ?_⟩
  show round2 (min 105
    ((draws c).base.sec_enrollment + ((y : ℚ) - 2015) * (5/10))) ≤ 105
  calc round2 (min 105
        ((draws c).base.sec_enrollment + ((y : ℚ) - 2015) * (5/10)))
      ≤ round2 105 := round2_mono (min_le_left _ _)
    _ = 105 := round2_105

/-- C1 witness: the claim instantiated at the USA record for 2015 under
concrete valid draws. -/
theorem claim_C1_witness :
    ineqRecordFor "USA" (wIneqDraws usaCountry) 2015 ∈
      load_inequality_data wIneqDraws ∧
    20 ≤ (ineqRecordFor "USA" (wIneqDraws usaCountry) 2015).gini_coefficient ∧
    (ineqRecordFor "USA" (wIneqDraws usaCountry) 2015).gini_coefficient ≤ 70 := by
  have hmem : ineqRecordFor "USA" (wIneqDraws usaCountry) 2015 ∈
      load_inequality_data wIneqDraws :=
    mem_load_inequality_data.mpr
      ⟨usaCountry, by simp [countries_data, usaCountry], 2015,
        by simp [survey_year_list], rfl⟩
  obtain ⟨⟨h1, h2⟩, _⟩ := claim_C1_gini_bounds_palma wIneqDraws _ hmem
  exact ⟨hmem, h1, h2⟩

/-- C2 witness: the claim instantiated at the USA record for 2020 under
concrete valid draws. -/
theorem claim_C2_witness :
    gdpRecordFor "USA" (wGdpDraws usaCountry) 2020 ∈ load_gdp_data wGdpDraws ∧
    ∃ c ∈ countries_data, ∃ y ∈ gdp_year_list,
      gdpRecordFor "USA" (wGdpDraws usaCountry) 2020 =
        gdpRecordFor c.country_code (wGdpDraws c) y ∧
      (gdpRecordFor "USA" (wGdpDraws usaCountry) 2020).gdp_per_capita_current_usd =
        round2 ((wGdpDraws c).base_gdp *
          (1 + gdpGrowthFor (wGdpDraws c) y / 100) ^ (y - 2015)) ∧
      gdpGrowthFor (wGdpDraws c) 2020 = (wGdpDraws c).covid_growth ∧
      -5 ≤ (wGdpDraws c).covid_growth ∧ (wGdpDraws c).covid_growth ≤ -2 := by
  have hmem : gdpRecordFor "USA" (wGdpDraws usaCountry) 2020 ∈
      load_gdp_data wGdpDraws :=
    mem_load_gdp_data.mpr
      ⟨usaCountry, by simp [countries_data, usaCountry], 2020,
        by simp [gdp_year_list], rfl⟩
  refine ⟨hmem, claim_C2_gdp_formula wGdpDraws ?_ _ hmem⟩
  intro c hc
  rcases c with ⟨_, _, _, g⟩
  cases g <;> norm_num [wGdpDraws, GdpDraws.Valid, gdp_ranges, growth_range]

/-- C3 witness: the claim instantiated at the China records for 2015
and 2017 under concrete valid draws. -/
theorem claim_C3_witness :
    povertyRecordFor "CHN" (wPovDraws chnCountry) 2015 ∈
      load_poverty_data wPovDraws ∧
    povertyRecordFor "CHN" (wPovDraws chnCountry) 2017 ∈
      load_poverty_data wPovDraws ∧
    (povertyRecordFor "CHN" (wPovDraws chnCountry) 2017).poverty_headcount_215_pct
      < (povertyRecordFor "CHN" (wPovDraws chnCountry) 2015).poverty_headcount_215_pct ∧
    ∀ r ∈ load_poverty_data wPovDraws, ∀ c ∈ countries_data,
      c.country_code = r.country_code → c.income_group ≠ IncomeGroup.high := by
  have hm1 : povertyRecordFor "CHN" (wPovDraws chnCountry) 2015 ∈
      load_poverty_data wPovDraws :=
    mem_load_poverty_data.mpr
      ⟨chnCountry, by simp [countries_data, chnCountry], rfl, 2015,
        by simp [survey_year_list], rfl⟩
  have hm2 : povertyRecordFor "CHN" (wPovDraws chnCountry) 2017 ∈
      load_poverty_data wPovDraws :=
    mem_load_poverty_data.mpr
      ⟨chnCountry, by simp [countries_data, chnCountry], rfl, 2017,
        by simp [survey_year_list], rfl⟩
  have hv : ∀ c ∈ countries_data,
      PovertyDraws.Valid c.income_group (wPovDraws c) := by
    intro c hc
    rcases c with ⟨_, _, _, g⟩
    cases g <;> norm_num [wPovDraws, PovertyDraws.Valid]
  obtain ⟨⟨ha, _, _⟩, habs⟩ :=
    claim_C3_poverty_decline wPovDraws hv _ _ hm1 hm2 rfl (by decide)
  exact ⟨hm1, hm2, ha, habs⟩

/-- C5 (amended) witness: the amended claim instantiated at the China
record for 2015 under concrete ordered draws. -/
theorem claim_C5_amended_witness :
    (∀ c ∈ countries_data,
      (wPovDraws c).base_215 ≤ (wPovDraws c).base_365 ∧
      (wPovDraws c).base_365 ≤ (wPovDraws c).base_685) ∧
    povertyRecordFor "CHN" (wPovDraws chnCountry) 2015 ∈
      load_poverty_data wPovDraws ∧
    (povertyRecordFor "CHN" (wPovDraws chnCountry) 2015).poverty_headcount_215_pct
      ≤ (povertyRecordFor "CHN" (wPovDraws chnCountry) 2015).poverty_headcount_365_pct ∧
    (povertyRecordFor "CHN" (wPovDraws chnCountry) 2015).poverty_headcount_365_pct
      ≤ (povertyRecordFor "CHN" (wPovDraws chnCountry) 2015).poverty_headcount_685_pct := by
  have hord : ∀ c ∈ countries_data,
      (wPovDraws c).base_215 ≤ (wPovDraws c).base_365 ∧
      (wPovDraws c).base_365 ≤ (wPovDraws c).base_685 := by
    intro c hc
    rcases c with ⟨_, _, _, g⟩
    cases g <;> norm_num [wPovDraws]
  have hmem : povertyRecordFor "CHN" (wPovDraws chnCountry) 2015 ∈
      load_poverty_data wPovDraws :=
    mem_load_poverty_data.mpr
      ⟨chnCountry, by simp [countries_data, chnCountry], rfl, 2015,
        by simp [survey_year_list], rfl⟩
  obtain ⟨ha, hb⟩ := claim_C5_amended_monotone_lines wPovDraws hord _ hmem
  exact ⟨hord, hmem, ha, hb⟩

/-- C6 witness: the claim instantiated at the USA record for 2015 under
concrete valid draws. -/
theorem claim_C6_witness :
    tradeEduRecordFor "USA" (wTradeDraws usaCountry) 2015 ∈
      load_trade_education wTradeDraws ∧
    (tradeEduRecordFor "USA" (wTradeDraws usaCountry) 2015).secondary_enrollment_rate ≤ 105 ∧
    (tradeEduRecordFor "USA" (wTradeDraws usaCountry) 2015).tertiary_enrollment_rate ≤ 105 := by
  have hmem : tradeEduRecordFor "USA" (wTradeDraws usaCountry) 2015 ∈
      load_trade_education wTradeDraws :=
    mem_load_trade_education.mpr
      ⟨usaCountry, by simp [countries_data, usaCountry], 2015,
        by simp [gdp_year_list], rfl⟩
  have hv : ∀ c ∈ countries_data,
      TradeEduDraws.Valid c.income_group (wTradeDraws c) := by
    intro c hc
    rcases c with ⟨_, _, _, g⟩
    cases g <;>
      norm_num [wTradeDraws, wTradeBase, TradeEduDraws.Valid, eduRanges]
  obtain ⟨h1, h2⟩ := claim_C6_enrollment_caps wTradeDraws hv _ hmem
  exact ⟨hmem, h1, h2⟩

/-- C9 (amended) witness: the amended claim instantiated at the USA
record for 2015 under concrete draws. -/
theorem claim_C9_amended_witness :
    tradeEduRecordFor "USA" (wTradeDraws usaCountry) 2015 ∈
      load_trade_education wTradeDraws ∧
    ∃ c ∈ countries_data, ∃ y ∈ gdp_year_list,
      tradeEduRecordFor "USA" (wTradeDraws usaCountry) 2015 =
        tradeEduRecordFor c.country_code (wTradeDraws c) y ∧
      (tradeEduRecordFor "USA" (wTradeDraws usaCountry) 2015).trade_pct_gdp =
        round2 ((wTradeDraws c).base.base_trade +
          ((wTradeDraws c).perYear y).trade_var) ∧
      (tradeEduRecordFor "USA" (wTradeDraws usaCountry) 2015).secondary_enrollment_rate =
        round2 (min 105
          ((wTradeDraws c).base.sec_enrollment + ((y : ℚ) - 2015) * (5/10))) ∧
      (tradeEduRecordFor "USA" (wTradeDraws usaCountry) 2015).tertiary_enrollment_rate =
        round2 ((wTradeDraws c).base.ter_enrollment + ((y : ℚ) - 2015) * (3/10)) ∧
      (tradeEduRecordFor "USA" (wTradeDraws usaCountry) 2015).government_expenditure_education_pct =
        round2 ((wTradeDraws c).base.gov_edu_exp +
          ((wTradeDraws c).perYear y).exp_var) ∧
      (tradeEduRecordFor "USA" (wTradeDraws usaCountry) 2015).secondary_enrollment_rate ≤ 105 := by
  have hmem : tradeEduRecordFor "USA" (wTradeDraws usaCountry) 2015 ∈
      load_trade_education wTradeDraws :=
    mem_load_trade_education.mpr
      ⟨usaCountry, by simp [countries_data, usaCountry], 2015,
        by simp [gdp_year_list], rfl⟩
  exact ⟨hmem, claim_C9_amended_per_year_values wTradeDraws _ hmem⟩

/-- C10 witness: the claim instantiated at the USA inequality draws for
2015. -/
theorem claim_C10_witness :
    8 ≤ ((wIneqDraws usaCountry).perYear 2015).lowest_20 * 2 ∧
    ((wIneqDraws usaCountry).perYear 2015).lowest_20 * 2 ≠ 0 ∧
    (ineqRecordFor usaCountry.country_code (wIneqDraws usaCountry) 2015).palma_ratio =
      round2 (((wIneqDraws usaCountry).perYear 2015).highest_20 /
        (((wIneqDraws usaCountry).perYear 2015).lowest_20 * 2)) := by
  refine claim_C10_palma_denominator wIneqDraws ?_ usaCountry
    (by simp [countries_data, usaCountry]) 2015
  intro c hc
  rcases c with ⟨_, _, rg, _⟩
  cases rg <;> norm_num [wIneqDraws, IneqDraws.Valid, gini_ranges]

end LoadData
